import Mathlib

/-!
Formal model of the Multi-Bot Platform deployment orchestrator.

The definitions below are a shallow embedding of `backend/docker_manager.py`,
`backend/main.py` and the record model of `backend/models.py`.  External
effects (the Docker daemon, the git subprocess, the uploaded archive) are
represented by explicit oracle fields carried in the state: each oracle
records the outcome the external system would produce at the corresponding
call site, so every Python control path is represented by a value of the
oracle.  Machine state (containers, files, database rows) is passed
explicitly and every definition is executable.
-/

/-! ### Naming scheme (`docker_manager.get_container_name` / `get_image_name`)

Python: `f"bot_{bot_id}"` and `f"bot_{bot_id}:latest"`, where `bot_id` is the
integer primary key.  Integer-to-decimal-string conversion is `Nat.repr`.
-/

/-- `get_container_name` from `docker_manager.py`: `f"bot_{bot_id}"`. -/
def get_container_name (bot_id : Nat) : String :=
  "bot_" ++ toString bot_id

/-- `get_image_name` from `docker_manager.py`: `f"bot_{bot_id}:latest"`. -/
def get_image_name (bot_id : Nat) : String :=
  "bot_" ++ toString bot_id ++ ":latest"

/-! Injectivity of the decimal representation used by the naming scheme.
`Nat.repr n` is `(Nat.toDigits 10 n).asString`; we relate it to a direct
recursive digit list and decode it back. -/

/-- Direct (fuel-free) decimal digit list of a natural number, most
significant digit first; equal to `Nat.toDigits 10`. -/
def decDigits (n : Nat) : List Char :=
  if h : n / 10 = 0 then [Nat.digitChar (n % 10)]
  else decDigits (n / 10) ++ [Nat.digitChar (n % 10)]
decreasing_by
  simp_wf
  omega

theorem toDigitsCore_append (f n : Nat) (acc : List Char) :
    Nat.toDigitsCore 10 f n acc = Nat.toDigitsCore 10 f n [] ++ acc := by
  induction f generalizing n acc with
  | zero => simp [Nat.toDigitsCore]
  | succ f ih =>
    simp only [Nat.toDigitsCore]
    by_cases h : n / 10 = 0
    · simp [h]
    · simp only [h, if_false]
      rw [ih (n / 10) (Nat.digitChar (n % 10) :: acc),
        ih (n / 10) [Nat.digitChar (n % 10)]]
      simp

theorem toDigitsCore_eq_decDigits (f n : Nat) (h : n < f) :
    Nat.toDigitsCore 10 f n [] = decDigits n := by
  induction f generalizing n with
  | zero => omega
  | succ f ih =>
    rw [decDigits]
    simp only [Nat.toDigitsCore]
    by_cases h0 : n / 10 = 0
    · simp [h0]
    · simp only [h0, if_false]
      rw [toDigitsCore_append, ih (n / 10) (by omega)]
      simp [h0]

/-- Value of a decimal digit character. -/
def charToDigit (c : Char) : Nat := c.toNat - 48

/-- Decimal value of a digit character list, most significant first. -/
def digitsVal (l : List Char) : Nat :=
  l.foldl (fun a c => 10 * a + charToDigit c) 0

theorem charToDigit_digitChar : ∀ d, d < 10 → charToDigit (Nat.digitChar d) = d := by
  decide

theorem digitsVal_decDigits (n : Nat) : digitsVal (decDigits n) = n := by
  induction n using Nat.strong_induction_on with
  | _ n ih =>
    rw [decDigits]
    by_cases h : n / 10 = 0
    · have hn : n < 10 := by omega
      have hm : n % 10 = n := Nat.mod_eq_of_lt hn
      simp [h, digitsVal, hm, charToDigit_digitChar n hn]
    · have hlt : n / 10 < n := by omega
      simp only [h, dif_neg, not_false_iff]
      have : digitsVal (decDigits (n / 10) ++ [Nat.digitChar (n % 10)]) =
          10 * digitsVal (decDigits (n / 10)) + charToDigit (Nat.digitChar (n % 10)) := by
        simp [digitsVal, List.foldl_append]
      rw [this, ih (n / 10) hlt,
        charToDigit_digitChar (n % 10) (Nat.mod_lt n (by omega))]
      omega

theorem decDigits_injective (m n : Nat) (h : decDigits m = decDigits n) : m = n := by
  have := digitsVal_decDigits m
  rw [h, digitsVal_decDigits n] at this
  omega

theorem natRepr_injective (m n : Nat) (h : Nat.repr m = Nat.repr n) : m = n := by
  apply decDigits_injective
  have hm : Nat.repr m = (decDigits m).asString := by
    rw [Nat.repr, Nat.toDigits, toDigitsCore_eq_decDigits (m + 1) m (Nat.lt_succ_self m)]
  have hn : Nat.repr n = (decDigits n).asString := by
    rw [Nat.repr, Nat.toDigits, toDigitsCore_eq_decDigits (n + 1) n (Nat.lt_succ_self n)]
  rw [hm, hn] at h
  simpa [List.asString, String.ext_iff] using h

/-! ### Key-value helpers

Container tables and directory listings are modelled as association lists
with unique keys; `removeKey` models deletion, `lookupStr` models lookup.
-/

def lookupStr {α : Type} : List (String × α) → String → Option α
  | [], _ => none
  | (k, v) :: rest, key => if k = key then some v else lookupStr rest key

def removeKey {α : Type} : List (String × α) → String → List (String × α)
  | [], _ => []
  | (k, v) :: rest, key =>
    if k = key then removeKey rest key else (k, v) :: removeKey rest key

theorem lookupStr_removeKey_self {α : Type} (l : List (String × α)) (k : String) :
    lookupStr (removeKey l k) k = none := by
  induction l with
  | nil => rfl
  | cons p rest ih =>
    by_cases h : p.1 = k
    · simpa [removeKey, h] using ih
    · simpa [removeKey, lookupStr, h] using ih

theorem lookupStr_removeKey_ne {α : Type} (l : List (String × α)) (k k' : String)
    (h : k' ≠ k) : lookupStr (removeKey l k) k' = lookupStr l k' := by
  induction l with
  | nil => rfl
  | cons p rest ih =>
    obtain ⟨k0, v0⟩ := p
    by_cases hp : k0 = k
    · have h1 : removeKey ((k0, v0) :: rest) k = removeKey rest k := by
        simp [removeKey, hp]
      have h2 : lookupStr ((k0, v0) :: rest) k' = lookupStr rest k' := by
        have hne : k0 ≠ k' := fun hk => h (hk ▸ hp)
        simp [lookupStr, hne]
      rw [h1, ih, h2]
    · have h1 : removeKey ((k0, v0) :: rest) k = (k0, v0) :: removeKey rest k := by
        simp [removeKey, hp]
      rw [h1]
      simp [lookupStr, ih]

theorem removeKey_cons_self {α : Type} (l : List (String × α)) (k : String) (v : α) :
    removeKey ((k, v) :: l) k = removeKey l k := by
  simp [removeKey]

theorem removeKey_idem {α : Type} (l : List (String × α)) (k : String) :
    removeKey (removeKey l k) k = removeKey l k := by
  induction l with
  | nil => rfl
  | cons p rest ih =>
    by_cases h : p.1 = k
    · simp [removeKey, h, ih]
    · simp [removeKey, h, ih]

/-! ### Container runtime state (`docker_manager.py`)

`DockerState.available` models whether the module-level `docker_client` is
non-`None`.  The oracle fields model the outcome of the next call into the
Docker SDK: `getError` is the exception text when `containers.get` (or the
subsequent stop/remove) raises something other than `NotFound`, `buildRaises`
is the exception text when `images.build` raises, `buildLog` is the streamed
build output on success, and `runRaises` is the exception text when
`containers.run` raises.  `none` means the call succeeds.
-/

structure ContainerInfo where
  image : String
  env : List (String × String)
  command : List String
  restartPolicy : String
  status : String
deriving Repr, DecidableEq

structure DockerState where
  available : Bool
  containers : List (String × ContainerInfo)
  getError : Option String
  buildRaises : Option String
  buildLog : String
  runRaises : Option String
deriving Repr, DecidableEq

/-- `get_bot_status` from `docker_manager.py`. -/
def get_bot_status (d : DockerState) (bot_id : Nat) : String :=
  if d.available = false then "Unknown"
  else
    match d.getError with
    | some e => "Error: " ++ e
    | none =>
      match lookupStr d.containers (get_container_name bot_id) with
      | some c =>
        if c.status = "running" then "Running" else "Stopped (" ++ c.status ++ ")"
      | none => "Stopped"

/-! ### Filesystem state and image build -/

structure FileSystem where
  templateExists : Bool
  templateContent : String
  files : List (String × String)
deriving Repr, DecidableEq

/-- Write (create or overwrite) a file. -/
def fsWrite (fs : FileSystem) (path content : String) : FileSystem :=
  { fs with files := (path, content) :: removeKey fs.files path }

/-- The fallback Dockerfile written by `build_bot_image` when no template
file is present (the triple-quoted literal in `docker_manager.py`). -/
def basicDockerfile : String :=
  "FROM python:3.11-slim\n\nWORKDIR /app\n\n# Copy requirements and install if exists\nCOPY requirements.txt* ./\nRUN if [ -f requirements.txt ]; then pip install --no-cache-dir -r requirements.txt; fi\n\n# Copy bot source code\nCOPY . .\n\n# Default command (will be overridden)\nCMD [\"python\", \"bot.py\"]\n"

/-- `build_bot_image` from `docker_manager.py`.  The Dockerfile at
`code_path + "/Dockerfile"` is unconditionally written before building:
the template is copied over it when a template file exists, otherwise the
fallback content is written.  `buildRaises` models an exception raised by
the `images.build` call. -/
def build_bot_image (d : DockerState) (fs : FileSystem) (bot_id : Nat)
    (code_path : String) : (Bool × String) × FileSystem :=
  if d.available = false then ((false, "Docker client not available"), fs)
  else
    let image_name := get_image_name bot_id
    let dockerfile_path := code_path ++ "/Dockerfile"
    let content := if fs.templateExists then fs.templateContent else basicDockerfile
    let fs1 := fsWrite fs dockerfile_path content
    match d.buildRaises with
    | some e => ((false, "Failed to build image: " ++ e), fs1)
    | none =>
      ((true, "Image built successfully: " ++ image_name ++ "\n" ++ d.buildLog), fs1)

/-! ### Container run / stop / restart -/

/-- Python `str.split()` on whitespace, dropping empty chunks. -/
def pySplit (s : String) : List String :=
  (s.split Char.isWhitespace).filter (fun t => t != "")

/-- The default command `["python", "bot.py"]` used when `start_command`
is falsy. -/
def defaultCommand : List String := ["python", "bot.py"]

/-- `run_bot_container` from `docker_manager.py`.  An existing container
with the deterministic name is stopped (grace period `timeout=10`) and
removed; `NotFound` is swallowed.  The new container is started detached
from the bot's image with the given environment, the split start command
(or the default when the command string is empty) and restart policy
`always`.  The short container id appended to the Python success message is
runtime-assigned and omitted here. -/
def run_bot_container (d : DockerState) (bot_id : Nat)
    (env_vars : List (String × String)) (start_command : String) :
    (Bool × String) × DockerState :=
  if d.available = false then ((false, "Docker client not available"), d)
  else
    let container_name := get_container_name bot_id
    let image_name := get_image_name bot_id
    match d.getError with
    | some e => ((false, "Failed to run container: " ++ e), d)
    | none =>
      let d1 := { d with containers := removeKey d.containers container_name }
      let command_parts :=
        if start_command = "" then defaultCommand else pySplit start_command
      match d.runRaises with
      | some e => ((false, "Failed to run container: " ++ e), d1)
      | none =>
        let c : ContainerInfo :=
          { image := image_name, env := env_vars, command := command_parts,
            restartPolicy := "always", status := "running" }
        ((true, "Container " ++ container_name ++ " started successfully"),
          { d1 with containers := (container_name, c) :: d1.containers })

/-- `stop_bot_container` from `docker_manager.py`: stop (grace period
`timeout=10`) and remove the named container; `NotFound` yields success
with a distinct message. -/
def stop_bot_container (d : DockerState) (bot_id : Nat) :
    (Bool × String) × DockerState :=
  if d.available = false then ((false, "Docker client not available"), d)
  else
    let container_name := get_container_name bot_id
    match d.getError with
    | some e => ((false, "Failed to stop container: " ++ e), d)
    | none =>
      match lookupStr d.containers container_name with
      | some _ =>
        ((true, "Container " ++ container_name ++ " stopped successfully"),
          { d with containers := removeKey d.containers container_name })
      | none => ((true, "Container " ++ container_name ++ " is not running"), d)

/-- `restart_bot_container` from `docker_manager.py`: stop, then run. -/
def restart_bot_container (d : DockerState) (bot_id : Nat)
    (env_vars : List (String × String)) (start_command : String) :
    (Bool × String) × DockerState :=
  let r1 := stop_bot_container d bot_id
  if r1.1.1 = false then ((false, "Failed to stop container: " ++ r1.1.2), r1.2)
  else
    let r2 := run_bot_container r1.2 bot_id env_vars start_command
    ((r2.1.1, "Restarted: " ++ r2.1.2), r2.2)

/-! ### Source fetcher (`clone_or_pull_repo`)

The git subprocess outcome is an oracle value: which branch runs (pull when
a `.git` working copy is already present, clone otherwise) and whether it
succeeds, times out, or raises, is decided by the filesystem and the remote,
both external to the orchestrator. -/

inductive GitResult where
  | pullOk (stdout : String)
  | pullFail (stderr : String)
  | cloneOk (stdout : String)
  | cloneFail (stderr : String)
  | timedOut
  | raised (e : String)
deriving Repr, DecidableEq

/-- `clone_or_pull_repo` from `docker_manager.py`, composing the message
for each subprocess outcome. -/
def clone_or_pull_repo (g : GitResult) (repo_url code_path : String) :
    Bool × String :=
  match g with
  | .pullOk out => (true, "Successfully pulled latest changes:\n" ++ out)
  | .pullFail err => (false, "Git pull failed:\n" ++ err)
  | .cloneOk out => (true, "Successfully cloned repository:\n" ++ out)
  | .cloneFail err => (false, "Git clone failed:\n" ++ err)
  | .timedOut => (false, "Git operation timed out")
  | .raised e => (false, "Git operation failed: " ++ e)

/-! ### Registry records (`models.py`) and endpoint state (`main.py`) -/

structure Deployment where
  id : Nat
  bot_id : Nat
  status : String
  log : Option String
deriving Repr, DecidableEq

structure BotApp where
  id : Nat
  name : String
  repo_url : Option String
  code_path : String
  start_command : String
  env_vars : List (String × String)
deriving Repr, DecidableEq

structure DB where
  bots : List BotApp
  deployments : List Deployment
  next_deployment_id : Nat
deriving Repr, DecidableEq

/-- `db.query(BotApp).filter(BotApp.id == bot_id).first()`. -/
def findBot (db : DB) (bot_id : Nat) : Option BotApp :=
  db.bots.find? (fun b => b.id == bot_id)

def findDeployment (db : DB) (dep_id : Nat) : Option Deployment :=
  db.deployments.find? (fun d => d.id == dep_id)

/-- `Deployment(bot_id=..., status="pending")` added and committed; the
autoincrement primary key is the next fresh id. -/
def createDeployment (db : DB) (bot_id : Nat) : Nat × DB :=
  (db.next_deployment_id,
    { db with
      deployments := db.deployments ++
        [{ id := db.next_deployment_id, bot_id := bot_id, status := "pending",
           log := none }],
      next_deployment_id := db.next_deployment_id + 1 })

/-- Assignment of `deployment.status` and `deployment.log` followed by
`db.commit()`, addressed by primary key. -/
def setDeployment (db : DB) (dep_id : Nat) (st lg : String) : DB :=
  { db with
    deployments := db.deployments.map
      (fun d => if d.id = dep_id then { d with status := st, log := some lg } else d) }

/-- `"\n".join(logs)`. -/
def joinLogs (logs : List String) : String := String.intercalate "\n" logs

/-- HTTP-level outcome of an endpoint: a redirect response or a raised
`HTTPException`. -/
inductive Response where
  | redirect (url : String)
  | httpError (code : Nat) (detail : String)
deriving Repr, DecidableEq

/-- The orchestration steps of the deployment sequence, recorded in the
order the endpoint executed them. -/
inductive Step where
  | fetch
  | build
  | relaunch
deriving Repr, DecidableEq

structure World where
  db : DB
  docker : DockerState
  fs : FileSystem
  git : GitResult
deriving Repr, DecidableEq

/-- Result of one endpoint call: the HTTP outcome, the post state, the
orchestration steps that ran, and the sequence of writes to the `status`
column (record id paired with the written value, creation included). -/
structure DeployResult where
  response : Response
  world : World
  steps : List Step
  statusWrites : List (Nat × String)
deriving Repr, DecidableEq

/-- `POST /bots/{bot_id}/deploy` (`deploy_bot` in `main.py`).  Python
truthiness: `if not bot.repo_url` rejects both `None` and the empty
string. -/
def deploy_bot (w : World) (bot_id : Nat) : DeployResult :=
  match findBot w.db bot_id with
  | none =>
    { response := .httpError 404 "Bot not found", world := w, steps := [],
      statusWrites := [] }
  | some bot =>
    if bot.repo_url = none ∨ bot.repo_url = some "" then
      { response := .httpError 400 "No repository URL configured", world := w,
        steps := [], statusWrites := [] }
    else
      let repo_url := bot.repo_url.getD ""
      let dep_id := (createDeployment w.db bot_id).1
      let db1 := (createDeployment w.db bot_id).2
      let fetched := clone_or_pull_repo w.git repo_url bot.code_path
      let logs1 := [fetched.2]
      if fetched.1 = false then
        { response := .httpError 500 fetched.2,
          world := { w with db := setDeployment db1 dep_id "failed" (joinLogs logs1) },
          steps := [.fetch],
          statusWrites := [(dep_id, "pending"), (dep_id, "failed")] }
      else
        let built := build_bot_image w.docker w.fs bot.id bot.code_path
        let logs2 := logs1 ++ [built.1.2]
        if built.1.1 = false then
          { response := .httpError 500 built.1.2,
            world := { w with
              db := setDeployment db1 dep_id "failed" (joinLogs logs2),
              fs := built.2 },
            steps := [.fetch, .build],
            statusWrites := [(dep_id, "pending"), (dep_id, "failed")] }
        else
          let restarted := restart_bot_container w.docker bot.id bot.env_vars
            bot.start_command
          let logs3 := logs2 ++ [restarted.1.2]
          let final_status := if restarted.1.1 then "success" else "failed"
          { response := .redirect ("/bots/" ++ toString bot_id),
            world := { w with
              db := setDeployment db1 dep_id final_status (joinLogs logs3),
              fs := built.2, docker := restarted.2 },
            steps := [.fetch, .build, .relaunch],
            statusWrites := [(dep_id, "pending"), (dep_id, final_status)] }

/-- The upload request: the archive metadata and an oracle for an exception
raised by the pre-build file steps (saving the archive, clearing the code
directory, extracting; modelled as raised at the first of them, before any
log line is appended). -/
structure UploadReq where
  filename : String
  size : Nat
  fileError : Option String
deriving Repr, DecidableEq

/-- `POST /bots/{bot_id}/upload` (`upload_bot_code` in `main.py`).  The
whole body after record creation sits in a blanket `try/except Exception`;
the `HTTPException` raised on a build failure is itself an `Exception`, so
it is caught by that handler, which appends `"Error: " + str(e)` (for an
`HTTPException`, `str` gives `"<code>: <detail>"`), forces the status to
`failed`, rewrites the log, and falls through to the redirect. -/
def upload_bot_code (w : World) (u : UploadReq) (bot_id : Nat) : DeployResult :=
  match findBot w.db bot_id with
  | none =>
    { response := .httpError 404 "Bot not found", world := w, steps := [],
      statusWrites := [] }
  | some bot =>
    let dep_id := (createDeployment w.db bot_id).1
    let db1 := (createDeployment w.db bot_id).2
    match u.fileError with
    | some e =>
      let logs := ["Error: " ++ e]
      { response := .redirect ("/bots/" ++ toString bot_id),
        world := { w with db := setDeployment db1 dep_id "failed" (joinLogs logs) },
        steps := [],
        statusWrites := [(dep_id, "pending"), (dep_id, "failed")] }
    | none =>
      let logs1 := ["Uploaded file: " ++ u.filename ++ " (" ++ toString u.size
          ++ " bytes)", "Extracted to: " ++ bot.code_path]
      let built := build_bot_image w.docker w.fs bot.id bot.code_path
      let logs2 := logs1 ++ [built.1.2]
      if built.1.1 = false then
        let logs3 := logs2 ++ ["Error: 500: " ++ built.1.2]
        { response := .redirect ("/bots/" ++ toString bot_id),
          world := { w with
            db := setDeployment db1 dep_id "failed" (joinLogs logs3),
            fs := built.2 },
          steps := [.build],
          statusWrites := [(dep_id, "pending"), (dep_id, "failed"), (dep_id, "failed")] }
      else
        let restarted := restart_bot_container w.docker bot.id bot.env_vars
          bot.start_command
        let logs3 := logs2 ++ [restarted.1.2]
        let final_status := if restarted.1.1 then "success" else "failed"
        { response := .redirect ("/bots/" ++ toString bot_id),
          world := { w with
            db := setDeployment db1 dep_id final_status (joinLogs logs3),
            fs := built.2, docker := restarted.2 },
          steps := [.build, .relaunch],
          statusWrites := [(dep_id, "pending"), (dep_id, final_status)] }

/-! ### Generic facts about record creation and finalization -/

theorem joinLogs_pair (a b : String) : joinLogs [a, b] = a ++ "\n" ++ b := rfl

theorem joinLogs_triple (a b c : String) :
    joinLogs [a, b, c] = a ++ "\n" ++ b ++ "\n" ++ c := rfl

theorem createDeployment_fst (db : DB) (bot_id : Nat) :
    (createDeployment db bot_id).1 = db.next_deployment_id := rfl

theorem setDeployment_bots (db : DB) (dep_id : Nat) (st lg : String) :
    (setDeployment db dep_id st lg).bots = db.bots := rfl

theorem createDeployment_bots (db : DB) (bot_id : Nat) :
    ((createDeployment db bot_id).2).bots = db.bots := rfl

/-- The finalized fresh record is present after create-then-set. -/
theorem finalize_mem (db : DB) (bot_id : Nat) (st lg : String) :
    ({ id := db.next_deployment_id, bot_id := bot_id, status := st,
       log := some lg } : Deployment) ∈
      (setDeployment (createDeployment db bot_id).2 db.next_deployment_id
        st lg).deployments := by
  simp [setDeployment, createDeployment]

/-- Pre-existing records with a different id survive create-then-set
untouched. -/
theorem mem_setDeployment_create (db : DB) (bot_id : Nat) (st lg : String)
    (d : Deployment) (hd : d ∈ db.deployments)
    (hne : d.id ≠ db.next_deployment_id) :
    d ∈ (setDeployment (createDeployment db bot_id).2 db.next_deployment_id
        st lg).deployments := by
  simp only [setDeployment, createDeployment, List.map_append, List.mem_append]
  exact Or.inl (by
    simp only [List.mem_map]
    exact ⟨d, hd, by simp [hne]⟩)

/-- After create-then-set, any record that is not one of the pre-existing
records is the finalized fresh record. -/
theorem new_mem_setDeployment_create (db : DB) (bot_id : Nat) (st lg : String)
    (d' : Deployment)
    (hwf : ∀ d ∈ db.deployments, d.id < db.next_deployment_id)
    (hd' : d' ∈ (setDeployment (createDeployment db bot_id).2
        db.next_deployment_id st lg).deployments)
    (hnotold : d' ∉ db.deployments) :
    d' = { id := db.next_deployment_id, bot_id := bot_id, status := st,
           log := some lg } := by
  simp only [setDeployment, createDeployment, List.map_append, List.mem_append,
    List.mem_map, List.map_cons, List.map_nil, List.mem_cons,
    List.not_mem_nil, or_false] at hd'
  rcases hd' with ⟨d, hd, hfd⟩ | hfresh
  · exfalso
    have hne : d.id ≠ db.next_deployment_id := by
      have := hwf d hd
      omega
    rw [if_neg hne] at hfd
    exact hnotold (hfd ▸ hd)
  · simpa using hfresh

/-! ### Branch shape of the two deployment endpoints -/

/-- `deploy_bot` either rejects before creating a record (leaving the
registry untouched) or finalizes the fresh record with a terminal status. -/
theorem deploy_bot_db_shape (w : World) (bot_id : Nat) :
    ((deploy_bot w bot_id).world.db = w.db ∧
      (deploy_bot w bot_id).statusWrites = []) ∨
    (∃ st lg, (st = "success" ∨ st = "failed") ∧
      (deploy_bot w bot_id).world.db =
        setDeployment (createDeployment w.db bot_id).2 w.db.next_deployment_id
          st lg ∧
      (deploy_bot w bot_id).statusWrites =
        [(w.db.next_deployment_id, "pending"), (w.db.next_deployment_id, st)]) := by
  cases hfb : findBot w.db bot_id with
  | none =>
    simp only [deploy_bot, hfb]
    exact Or.inl ⟨trivial, trivial⟩
  | some bot =>
    simp only [deploy_bot, hfb]
    by_cases hru : bot.repo_url = none ∨ bot.repo_url = some ""
    · rw [if_pos hru]
      exact Or.inl ⟨rfl, rfl⟩
    · rw [if_neg hru]
      by_cases hf : (clone_or_pull_repo w.git (bot.repo_url.getD "")
          bot.code_path).1 = false
      · rw [if_pos hf]
        exact Or.inr ⟨"failed", _, Or.inr rfl, rfl, rfl⟩
      · rw [if_neg hf]
        by_cases hb : (build_bot_image w.docker w.fs bot.id bot.code_path).1.1 = false
        · rw [if_pos hb]
          exact Or.inr ⟨"failed", _, Or.inr rfl, rfl, rfl⟩
        · rw [if_neg hb]
          by_cases hr : (restart_bot_container w.docker bot.id bot.env_vars
              bot.start_command).1.1 = true
          · rw [if_pos hr]
            exact Or.inr ⟨"success", _, Or.inl rfl, rfl, rfl⟩
          · rw [if_neg hr]
            exact Or.inr ⟨"failed", _, Or.inr rfl, rfl, rfl⟩

/-- `upload_bot_code` either rejects on an unknown bot (registry untouched)
or finalizes the fresh record with a terminal status; the build-failure
branch writes `failed` twice (once in the `try` body, once in the blanket
handler). -/
theorem upload_bot_code_db_shape (w : World) (u : UploadReq) (bot_id : Nat) :
    ((upload_bot_code w u bot_id).world.db = w.db ∧
      (upload_bot_code w u bot_id).statusWrites = []) ∨
    (∃ st lg, (st = "success" ∨ st = "failed") ∧
      (upload_bot_code w u bot_id).world.db =
        setDeployment (createDeployment w.db bot_id).2 w.db.next_deployment_id
          st lg ∧
      ((upload_bot_code w u bot_id).statusWrites =
          [(w.db.next_deployment_id, "pending"), (w.db.next_deployment_id, st)] ∨
        (upload_bot_code w u bot_id).statusWrites =
          [(w.db.next_deployment_id, "pending"), (w.db.next_deployment_id, st),
            (w.db.next_deployment_id, st)])) := by
  cases hfb : findBot w.db bot_id with
  | none =>
    simp only [upload_bot_code, hfb]
    exact Or.inl ⟨trivial, trivial⟩
  | some bot =>
    cases hfe : u.fileError with
    | some e =>
      simp only [upload_bot_code, hfb, hfe]
      exact Or.inr ⟨"failed", _, Or.inr rfl, rfl, Or.inl rfl⟩
    | none =>
      simp only [upload_bot_code, hfb, hfe]
      by_cases hb : (build_bot_image w.docker w.fs bot.id bot.code_path).1.1 = false
      · rw [if_pos hb]
        exact Or.inr ⟨"failed", _, Or.inr rfl, rfl, Or.inr rfl⟩
      · rw [if_neg hb]
        by_cases hr : (restart_bot_container w.docker bot.id bot.env_vars
            bot.start_command).1.1 = true
        · rw [if_pos hr]
          exact Or.inr ⟨"success", _, Or.inl rfl, rfl, Or.inl rfl⟩
        · rw [if_neg hr]
          exact Or.inr ⟨"failed", _, Or.inr rfl, rfl, Or.inl rfl⟩

theorem deploy_bot_world_bots (w : World) (bot_id : Nat) :
    (deploy_bot w bot_id).world.db.bots = w.db.bots := by
  rcases deploy_bot_db_shape w bot_id with ⟨h, _⟩ | ⟨st, lg, _, h, _⟩
  · rw [h]
  · rw [h, setDeployment_bots, createDeployment_bots]

theorem findBot_deploy_bot (w : World) (bot_id b : Nat) :
    findBot (deploy_bot w bot_id).world.db b = findBot w.db b := by
  unfold findBot
  rw [deploy_bot_world_bots]

/-! ### Status write discipline -/

/-- Status values that end a deployment record's lifecycle. -/
def terminalStatus (s : String) : Bool := s == "success" || s == "failed"

/-- An adjacent pair of status writes to the same record is legal when it
either finalizes a pending record or rewrites the value unchanged. -/
def statusWriteOk (prev next : String) : Bool :=
  (prev == "pending" && terminalStatus next) || prev == next

/-- Every adjacent pair of writes to the same record id is legal. -/
def chainOk : List (Nat × String) → Bool
  | [] => true
  | [_] => true
  | (i, s) :: (j, t) :: rest =>
    (i != j || statusWriteOk s t) && chainOk ((j, t) :: rest)

theorem chainOk_pair (i : Nat) (st : String) (hst : terminalStatus st = true) :
    chainOk [(i, "pending"), (i, st)] = true := by
  simp [chainOk, statusWriteOk, hst]

theorem chainOk_triple (i : Nat) (st : String) (hst : terminalStatus st = true) :
    chainOk [(i, "pending"), (i, st), (i, st)] = true := by
  simp [chainOk, statusWriteOk, hst]

/-! ### Concrete fixtures used by witnesses and counterexamples -/

def alphaBot : BotApp :=
  { id := 1, name := "alpha", repo_url := some "https://example/alpha.git",
    code_path := "/srv/bots/alpha", start_command := "python bot.py",
    env_vars := [] }

def betaBot : BotApp :=
  { id := 2, name := "beta", repo_url := none,
    code_path := "/srv/bots/beta", start_command := "python bot.py",
    env_vars := [] }

def runningContainer : ContainerInfo :=
  { image := "bot_1:latest", env := [], command := ["python", "bot.py"],
    restartPolicy := "always", status := "running" }

def dockerIdle : DockerState :=
  { available := true, containers := [], getError := none, buildRaises := none,
    buildLog := "", runRaises := none }

def dockerRunning : DockerState :=
  { dockerIdle with containers := [("bot_1", runningContainer)] }

def dockerBuildFail : DockerState :=
  { dockerRunning with buildRaises := some "boom" }

def fsPlain : FileSystem :=
  { templateExists := false, templateContent := "", files := [] }

def baseDB : DB :=
  { bots := [alphaBot, betaBot], deployments := [], next_deployment_id := 1 }

def baseWorld : World :=
  { db := baseDB, docker := dockerRunning, fs := fsPlain,
    git := GitResult.pullOk "Already up to date." }

def buildFailWorld : World :=
  { baseWorld with docker := dockerBuildFail }

def baseUpload : UploadReq :=
  { filename := "code.zip", size := 10, fileError := none }

/-- C5: deployment record statuses are write-once-then-frozen.  For both
orchestrator entry points: every sequence of status writes performed by one
call moves a record only from `pending` to `success` or `failed` (a repeated
write of the same terminal value being a no-op); no write ever targets a
pre-existing record, so a record that already holds a terminal status is
never changed again (pre-existing records survive verbatim); and every
record created by a call holds a terminal status when the call returns. -/
theorem C5_record_status_lifecycle (w : World) (bot_id : Nat) (u : UploadReq)
    (hwf : ∀ d ∈ w.db.deployments, d.id < w.db.next_deployment_id) :
    (chainOk (deploy_bot w bot_id).statusWrites = true ∧
      chainOk (upload_bot_code w u bot_id).statusWrites = true) ∧
    (∀ p ∈ (deploy_bot w bot_id).statusWrites,
      ∀ d ∈ w.db.deployments, p.1 ≠ d.id) ∧
    (∀ p ∈ (upload_bot_code w u bot_id).statusWrites,
      ∀ d ∈ w.db.deployments, p.1 ≠ d.id) ∧
    (∀ d ∈ w.db.deployments,
      d ∈ (deploy_bot w bot_id).world.db.deployments ∧
      d ∈ (upload_bot_code w u bot_id).world.db.deployments) ∧
    (∀ d' ∈ (deploy_bot w bot_id).world.db.deployments,
      d' ∉ w.db.deployments → d'.status = "success" ∨ d'.status = "failed") ∧
    (∀ d' ∈ (upload_bot_code w u bot_id).world.db.deployments,
      d' ∉ w.db.deployments → d'.status = "success" ∨ d'.status = "failed") := by
  have hterm : ∀ st : String, st = "success" ∨ st = "failed" →
      terminalStatus st = true := by
    rintro st (rfl | rfl) <;> decide
  have hd := deploy_bot_db_shape w bot_id
  have hu := upload_bot_code_db_shape w u bot_id
  refine ⟨⟨?_, ?_⟩, ?_, ?_, ?_, ?_, ?_⟩
  · rcases hd with ⟨_, hw⟩ | ⟨st, lg, hst, _, hw⟩
    · rw [hw]; rfl
    · rw [hw]; exact chainOk_pair _ st (hterm st hst)
  · rcases hu with ⟨_, hw⟩ | ⟨st, lg, hst, _, hw | hw⟩
    · rw [hw]; rfl
    · rw [hw]; exact chainOk_pair _ st (hterm st hst)
    · rw [hw]; exact chainOk_triple _ st (hterm st hst)
  · intro p hp d hd'
    have hlt := hwf d hd'
    rcases hd with ⟨_, hw⟩ | ⟨st, lg, _, _, hw⟩
    · rw [hw] at hp; cases hp
    · rw [hw] at hp
      simp only [List.mem_cons, List.not_mem_nil, or_false] at hp
      rcases hp with hp | hp
      · rw [hp]; intro hc; simp at hc; omega
      · rw [hp]; intro hc; simp at hc; omega
  · intro p hp d hd'
    have hlt := hwf d hd'
    rcases hu with ⟨_, hw⟩ | ⟨st, lg, _, _, hw | hw⟩
    · rw [hw] at hp; cases hp
    · rw [hw] at hp
      simp only [List.mem_cons, List.not_mem_nil, or_false] at hp
      rcases hp with hp | hp
      · rw [hp]; intro hc; simp at hc; omega
      · rw [hp]; intro hc; simp at hc; omega
    · rw [hw] at hp
      simp only [List.mem_cons, List.not_mem_nil, or_false] at hp
      rcases hp with hp | hp | hp
      · rw [hp]; intro hc; simp at hc; omega
      · rw [hp]; intro hc; simp at hc; omega
      · rw [hp]; intro hc; simp at hc; omega
  · intro d hd'
    have hne : d.id ≠ w.db.next_deployment_id := by
      have := hwf d hd'
      omega
    constructor
    · rcases hd with ⟨hdb, _⟩ | ⟨st, lg, _, hdb, _⟩
      · rw [hdb]; exact hd'
      · rw [hdb]; exact mem_setDeployment_create w.db bot_id st lg d hd' hne
    · rcases hu with ⟨hdb, _⟩ | ⟨st, lg, _, hdb, _⟩
      · rw [hdb]; exact hd'
      · rw [hdb]; exact mem_setDeployment_create w.db bot_id st lg d hd' hne
  · intro d' hd'mem hnot
    rcases hd with ⟨hdb, _⟩ | ⟨st, lg, hst, hdb, _⟩
    · rw [hdb] at hd'mem; exact absurd hd'mem hnot
    · rw [hdb] at hd'mem
      have := new_mem_setDeployment_create w.db bot_id st lg d' hwf hd'mem hnot
      rw [this]
      exact hst
  · intro d' hd'mem hnot
    rcases hu with ⟨hdb, _⟩ | ⟨st, lg, hst, hdb, _⟩
    · rw [hdb] at hd'mem; exact absurd hd'mem hnot
    · rw [hdb] at hd'mem
      have := new_mem_setDeployment_create w.db bot_id st lg d' hwf hd'mem hnot
      rw [this]
      exact hst

/-- C1: on a repo-backed deploy whose fetch succeeds and whose build fails,
the relaunch step is never attempted, the deployment record goes directly
from `pending` to `failed` with the build error text appended to the fetch
message in its transcript, and the container runtime state is left exactly
as it was — in particular a bot whose status was `Running` before the
deploy still reports `Running` afterwards. -/
theorem C1_build_failure_fail_safe (w : World) (bot_id : Nat) (bot : BotApp)
    (url : String)
    (hb : findBot w.db bot_id = some bot)
    (hr : bot.repo_url = some url) (hnb : url ≠ "")
    (hf : (clone_or_pull_repo w.git url bot.code_path).1 = true)
    (hbuild : (build_bot_image w.docker w.fs bot.id bot.code_path).1.1 = false) :
    Step.relaunch ∉ (deploy_bot w bot_id).steps ∧
    (deploy_bot w bot_id).world.docker = w.docker ∧
    (deploy_bot w bot_id).statusWrites =
      [(w.db.next_deployment_id, "pending"), (w.db.next_deployment_id, "failed")] ∧
    ({ id := w.db.next_deployment_id, bot_id := bot_id, status := "failed",
       log := some ((clone_or_pull_repo w.git url bot.code_path).2 ++ "\n" ++
         (build_bot_image w.docker w.fs bot.id bot.code_path).1.2) } : Deployment) ∈
      (deploy_bot w bot_id).world.db.deployments ∧
    (get_bot_status w.docker bot_id = "Running" →
      get_bot_status (deploy_bot w bot_id).world.docker bot_id = "Running") := by
  have hru : ¬(bot.repo_url = none ∨ bot.repo_url = some "") := by
    rw [hr]
    simp [hnb]
  have hgd : bot.repo_url.getD "" = url := by rw [hr]; rfl
  have hf' : ¬((clone_or_pull_repo w.git url bot.code_path).1 = false) := by
    rw [hf]; simp
  simp only [deploy_bot, hb]
  rw [if_neg hru, hgd, if_neg hf', if_pos hbuild]
  refine ⟨by simp, rfl, rfl, ?_, fun h => h⟩
  have hm := finalize_mem w.db bot_id "failed"
    (joinLogs [(clone_or_pull_repo w.git url bot.code_path).2,
      (build_bot_image w.docker w.fs bot.id bot.code_path).1.2])
  rw [joinLogs_pair] at hm
  exact hm

/-- Witness for C1: a concrete world with a running container for bot 1 and
a Docker build that raises; fetch succeeds, build fails, the container is
still reported `Running` and no relaunch step ran. -/
theorem C1_build_failure_fail_safe_witness :
    get_bot_status buildFailWorld.docker 1 = "Running" ∧
    Step.relaunch ∉ (deploy_bot buildFailWorld 1).steps ∧
    get_bot_status (deploy_bot buildFailWorld 1).world.docker 1 = "Running" := by
  have h := C1_build_failure_fail_safe buildFailWorld 1 alphaBot
    "https://example/alpha.git" rfl rfl (by decide) rfl rfl
  exact ⟨by decide, h.1, h.2.2.2.2 (by decide)⟩

/-- C2 counterexample: at a concrete state with bot 1 deployable, two
back-to-back deploy triggers for the same bot both proceed through the full
sequence (both run the build step and both succeed with a redirect); it is
not the case that exactly one proceeds while the other is rejected with a
conflict error — no conflict outcome exists in the code at all. -/
theorem C2_counterexample :
    Step.build ∈ (deploy_bot baseWorld 1).steps ∧
    Step.build ∈ (deploy_bot (deploy_bot baseWorld 1).world 1).steps ∧
    (deploy_bot baseWorld 1).response = Response.redirect "/bots/1" ∧
    (deploy_bot (deploy_bot baseWorld 1).world 1).response =
      Response.redirect "/bots/1" := by
  decide

/-- C2 (amended): the code performs no per-bot serialization of deployments
and has no conflict rejection: every deploy trigger for an existing bot with
a non-blank repository URL proceeds to run the fetch step, the only error
responses it can produce carry HTTP status 500 (never a 409 conflict), and
an immediately following trigger for the same bot also proceeds instead of
being rejected. -/
theorem C2_no_serialization (w : World) (bot_id : Nat) (bot : BotApp)
    (url : String)
    (hb : findBot w.db bot_id = some bot)
    (hr : bot.repo_url = some url) (hnb : url ≠ "") :
    Step.fetch ∈ (deploy_bot w bot_id).steps ∧
    (∀ code detail, (deploy_bot w bot_id).response =
      Response.httpError code detail → code = 500) ∧
    Step.fetch ∈ (deploy_bot (deploy_bot w bot_id).world bot_id).steps := by
  have hru : ¬(bot.repo_url = none ∨ bot.repo_url = some "") := by
    rw [hr]
    simp [hnb]
  have key : ∀ w' : World, findBot w'.db bot_id = some bot →
      Step.fetch ∈ (deploy_bot w' bot_id).steps ∧
      (∀ code detail, (deploy_bot w' bot_id).response =
        Response.httpError code detail → code = 500) := by
    intro w' hb'
    simp only [deploy_bot, hb']
    rw [if_neg hru]
    by_cases hf : (clone_or_pull_repo w'.git (bot.repo_url.getD "")
        bot.code_path).1 = false
    · rw [if_pos hf]
      refine ⟨by simp, ?_⟩
      intro code detail h
      injection h with h1 h2
      exact h1.symm
    · rw [if_neg hf]
      by_cases hbuild : (build_bot_image w'.docker w'.fs bot.id
          bot.code_path).1.1 = false
      · rw [if_pos hbuild]
        refine ⟨by simp, ?_⟩
        intro code detail h
        injection h with h1 h2
        exact h1.symm
      · rw [if_neg hbuild]
        refine ⟨by simp, ?_⟩
        intro code detail h
        simp at h
  have h1 := key w hb
  have h2 := key (deploy_bot w bot_id).world (by rw [findBot_deploy_bot]; exact hb)
  exact ⟨h1.1, h1.2, h2.1⟩

/-- Witness for C2 (amended) at the concrete deployable world. -/
theorem C2_no_serialization_witness :
    Step.fetch ∈ (deploy_bot baseWorld 1).steps ∧
    Step.fetch ∈ (deploy_bot (deploy_bot baseWorld 1).world 1).steps := by
  have h := C2_no_serialization baseWorld 1 alphaBot "https://example/alpha.git"
    rfl rfl (by decide)
  exact ⟨h.1, h.2.2⟩

/-- C4 counterexample: bot `beta` (id 2) has no configured repository URL;
a deploy trigger for it is rejected with HTTP 400 before any step runs — it
does not skip fetch and proceed to build from disk. -/
theorem C4_counterexample :
    (deploy_bot baseWorld 2).response =
      Response.httpError 400 "No repository URL configured" ∧
    (deploy_bot baseWorld 2).steps = [] ∧
    Step.build ∉ (deploy_bot baseWorld 2).steps := by
  decide

/-- C4 (amended): for a bot whose code comes from the upload mechanism
(no source remote), the deploy endpoint itself rejects the trigger with
HTTP 400 `No repository URL configured` and changes nothing; the
skip-fetch-then-build behavior lives on the separate upload endpoint,
whose sequence runs the build step and contains no fetch step (hence no
fetch error can enter the transcript). -/
theorem C4_upload_not_deploy (w : World) (bot_id : Nat) (bot : BotApp)
    (u : UploadReq)
    (hb : findBot w.db bot_id = some bot)
    (hr : bot.repo_url = none) (hu : u.fileError = none) :
    (deploy_bot w bot_id).response =
      Response.httpError 400 "No repository URL configured" ∧
    (deploy_bot w bot_id).world = w ∧
    (deploy_bot w bot_id).steps = [] ∧
    Step.build ∈ (upload_bot_code w u bot_id).steps ∧
    Step.fetch ∉ (upload_bot_code w u bot_id).steps := by
  have hru : bot.repo_url = none ∨ bot.repo_url = some "" := Or.inl hr
  simp only [deploy_bot, hb]
  rw [if_pos hru]
  refine ⟨rfl, rfl, rfl, ?_, ?_⟩ <;>
  · simp only [upload_bot_code, hb, hu]
    by_cases hbuild : (build_bot_image w.docker w.fs bot.id bot.code_path).1.1 = false
    · rw [if_pos hbuild]; simp
    · rw [if_neg hbuild]; simp

/-- Witness for C4 (amended) at the concrete world: bot 2 is upload-based. -/
theorem C4_upload_not_deploy_witness :
    (deploy_bot baseWorld 2).response =
      Response.httpError 400 "No repository URL configured" ∧
    Step.build ∈ (upload_bot_code baseWorld baseUpload 2).steps ∧
    Step.fetch ∉ (upload_bot_code baseWorld baseUpload 2).steps := by
  have h := C4_upload_not_deploy baseWorld 2 betaBot baseUpload rfl rfl rfl
  exact ⟨h.1, h.2.2.2.1, h.2.2.2.2⟩

/-- Filesystem fixture with a custom descriptor already at the source path
and a platform template available. -/
def customFS : FileSystem :=
  { templateExists := true, templateContent := "TEMPLATE",
    files := [("/srv/bots/alpha/Dockerfile", "CUSTOM")] }

/-- C3 counterexample: a custom descriptor `CUSTOM` is present at the
source path, yet the build succeeds after overwriting it with the platform
template — the custom descriptor is not used unchanged. -/
theorem C3_counterexample :
    lookupStr customFS.files "/srv/bots/alpha/Dockerfile" = some "CUSTOM" ∧
    (build_bot_image dockerIdle customFS 1 "/srv/bots/alpha").1.1 = true ∧
    lookupStr (build_bot_image dockerIdle customFS 1 "/srv/bots/alpha").2.files
      "/srv/bots/alpha/Dockerfile" = some "TEMPLATE" := by
  decide

/-- C3 (amended): `buildImage` always synthesizes the descriptor: whenever
the runtime client is available, the descriptor at `sourcePath` after the
call (whether or not the build itself succeeded) is the platform template
when a template file exists and the minimal default otherwise — a custom
descriptor previously present at `sourcePath` is overwritten, not used. -/
theorem C3_descriptor_always_overwritten (d : DockerState) (fs : FileSystem)
    (bot_id : Nat) (code_path : String) (hav : d.available = true) :
    lookupStr (build_bot_image d fs bot_id code_path).2.files
        (code_path ++ "/Dockerfile") =
      some (if fs.templateExists then fs.templateContent else basicDockerfile) := by
  have hav' : ¬(d.available = false) := by rw [hav]; simp
  simp only [build_bot_image]
  rw [if_neg hav']
  cases hbr : d.buildRaises <;> simp [fsWrite, lookupStr]

/-- Witness for C3 (amended): with no template file, the freshly written
descriptor is the minimal default. -/
theorem C3_descriptor_always_overwritten_witness :
    lookupStr (build_bot_image dockerIdle fsPlain 1 "/srv/bots/alpha").2.files
      "/srv/bots/alpha/Dockerfile" = some basicDockerfile := by
  have h := C3_descriptor_always_overwritten dockerIdle fsPlain 1 "/srv/bots/alpha" rfl
  simpa [fsPlain] using h

/-- C6 counterexample: stopping bot 1 with no container present and
stopping it with a running container both return success, but the two
results differ in their message text (`is not running` versus
`stopped successfully`), so the success results are distinguishable. -/
theorem C6_counterexample :
    (stop_bot_container dockerIdle 1).1 =
      (true, "Container bot_1 is not running") ∧
    (stop_bot_container dockerRunning 1).1 =
      (true, "Container bot_1 stopped successfully") ∧
    (stop_bot_container dockerIdle 1).1 ≠ (stop_bot_container dockerRunning 1).1 := by
  decide

/-- C6 (amended): with the runtime available and no SDK error, stopping a
bot always reports success: a never-started bot yields success (message
`is not running`) with the state unchanged; stopping twice in a row both
succeed and the second call leaves the state unchanged (an observable
no-op on the runtime state).  The boolean success flag is the same as when
stopping a running container, but the message text differs. -/
theorem C6_stop_idempotent_success (d : DockerState) (bot_id : Nat)
    (hav : d.available = true) (hge : d.getError = none) :
    (stop_bot_container d bot_id).1.1 = true ∧
    (lookupStr d.containers (get_container_name bot_id) = none →
      stop_bot_container d bot_id =
        ((true, "Container " ++ get_container_name bot_id ++ " is not running"),
          d)) ∧
    (stop_bot_container (stop_bot_container d bot_id).2 bot_id).1.1 = true ∧
    (stop_bot_container (stop_bot_container d bot_id).2 bot_id).2 =
      (stop_bot_container d bot_id).2 := by
  have hav' : ¬(d.available = false) := by rw [hav]; simp
  cases hlk : lookupStr d.containers (get_container_name bot_id) with
  | none =>
    have h1 : stop_bot_container d bot_id =
        ((true, "Container " ++ get_container_name bot_id ++ " is not running"),
          d) := by
      simp only [stop_bot_container, hge]
      rw [if_neg hav']
      rw [hlk]
    exact ⟨by simp [h1], fun _ => h1, by simp [h1], by simp [h1]⟩
  | some c =>
    have h1 : stop_bot_container d bot_id =
        ((true, "Container " ++ get_container_name bot_id ++
            " stopped successfully"),
          { d with containers := removeKey d.containers (get_container_name bot_id) }) := by
      simp only [stop_bot_container, hge]
      rw [if_neg hav']
      rw [hlk]
    have h2 : stop_bot_container
        { d with containers := removeKey d.containers (get_container_name bot_id) }
        bot_id =
        ((true, "Container " ++ get_container_name bot_id ++ " is not running"),
          { d with containers := removeKey d.containers (get_container_name bot_id) }) := by
      simp only [stop_bot_container]
      simp [hav, hge, lookupStr_removeKey_self]
    refine ⟨by simp [h1], ?_, by simp [h1, h2], by simp [h1, h2]⟩
    intro hnone
    cases hnone

/-- Witness for C6 (amended): a never-started bot and a running bot, with
the double stop on the running one. -/
theorem C6_stop_idempotent_success_witness :
    (stop_bot_container dockerIdle 1).1.1 = true ∧
    (stop_bot_container (stop_bot_container dockerRunning 1).2 1).1.1 = true ∧
    (stop_bot_container (stop_bot_container dockerRunning 1).2 1).2 =
      (stop_bot_container dockerRunning 1).2 := by
  have ha := C6_stop_idempotent_success dockerIdle 1 rfl rfl
  have hb := C6_stop_idempotent_success dockerRunning 1 rfl rfl
  exact ⟨ha.1, hb.2.2.1, hb.2.2.2⟩

/-- Two strings with different first characters differ. -/
theorem string_ne_of_head_ne (s t : String) (c1 c2 : Char) (l1 l2 : List Char)
    (h1 : s.data = c1 :: l1) (h2 : t.data = c2 :: l2) (hne : c1 ≠ c2) :
    s ≠ t := by
  intro h
  rw [h, h2] at h1
  injection h1 with hc _
  exact hne hc.symm

theorem error_prefix_ne_unknown (e : String) : "Error: " ++ e ≠ "Unknown" := by
  refine string_ne_of_head_ne _ _ 'E' 'U'
    (['r', 'r', 'o', 'r', ':', ' '] ++ e.data) ['n', 'k', 'n', 'o', 'w', 'n']
    ?_ rfl (by decide)
  rw [String.data_append]
  rfl

theorem stopped_prefix_ne_unknown (s : String) :
    "Stopped (" ++ s ++ ")" ≠ "Unknown" := by
  refine string_ne_of_head_ne _ _ 'S' 'U'
    ((['t', 'o', 'p', 'p', 'e', 'd', ' ', '('] ++ s.data) ++ ")".data)
    ['n', 'k', 'n', 'o', 'w', 'n'] ?_ rfl (by decide)
  rw [String.data_append, String.data_append]
  rfl

/-- Container fixture for a bot whose process has exited. -/
def exitedContainer : ContainerInfo :=
  { image := "bot_1:latest", env := [], command := ["python", "bot.py"],
    restartPolicy := "always", status := "exited" }

def dockerExited : DockerState :=
  { dockerIdle with containers := [("bot_1", exitedContainer)] }

def dockerUnavailable : DockerState :=
  { dockerIdle with available := false }

/-- C7 counterexample: with the runtime available, a container that exited
reports `Stopped (exited)` while a never-created container reports
`Stopped` — the two status strings differ, so a caller can distinguish the
cases from the returned value. -/
theorem C7_counterexample :
    get_bot_status dockerExited 1 = "Stopped (exited)" ∧
    get_bot_status dockerIdle 1 = "Stopped" ∧
    get_bot_status dockerExited 1 ≠ get_bot_status dockerIdle 1 := by
  decide

/-- C7 (amended): `status` returns `Unknown` exactly when the runtime
connection is unavailable; with the connection available and no SDK error,
a never-created container yields `Stopped` while a non-running container
yields `Stopped (` followed by its runtime state and `)` — both are
stopped-family results, but the returned strings are distinguishable. -/
theorem C7_status_unknown_iff (d : DockerState) (bot_id : Nat) :
    (get_bot_status d bot_id = "Unknown" ↔ d.available = false) ∧
    (d.available = true → d.getError = none →
      lookupStr d.containers (get_container_name bot_id) = none →
      get_bot_status d bot_id = "Stopped") ∧
    (∀ c, d.available = true → d.getError = none →
      lookupStr d.containers (get_container_name bot_id) = some c →
      c.status ≠ "running" →
      get_bot_status d bot_id = "Stopped (" ++ c.status ++ ")") := by
  refine ⟨⟨?_, ?_⟩, ?_, ?_⟩
  · intro h
    by_contra hav
    have hav' : ¬(d.available = false) := hav
    unfold get_bot_status at h
    rw [if_neg hav'] at h
    revert h
    cases hge : d.getError with
    | some e => exact fun h => error_prefix_ne_unknown e h
    | none =>
      cases hlk : lookupStr d.containers (get_container_name bot_id) with
      | none => exact fun h => absurd h (by decide)
      | some c =>
        show (if c.status = "running" then "Running"
          else "Stopped (" ++ c.status ++ ")") = "Unknown" → False
        by_cases hrun : c.status = "running"
        · rw [if_pos hrun]
          exact fun h => absurd h (by decide)
        · rw [if_neg hrun]
          exact fun h => stopped_prefix_ne_unknown c.status h
  · intro h
    unfold get_bot_status
    rw [if_pos h]
  · intro hav hge hlk
    simp [get_bot_status, hav, hge, hlk]
  · intro c hav hge hlk hrun
    simp [get_bot_status, hav, hge, hlk, hrun]

/-- Witness for C7 (amended): unavailable runtime, never-created container,
and exited container, at concrete states. -/
theorem C7_status_unknown_iff_witness :
    get_bot_status dockerUnavailable 1 = "Unknown" ∧
    get_bot_status dockerIdle 1 = "Stopped" ∧
    get_bot_status dockerExited 1 = "Stopped (exited)" := by
  have h1 := (C7_status_unknown_iff dockerUnavailable 1).1.2 rfl
  have h2 := (C7_status_unknown_iff dockerIdle 1).2.1 rfl rfl rfl
  have h3 := (C7_status_unknown_iff dockerExited 1).2.2 exitedContainer rfl rfl
    (by decide) (by decide)
  exact ⟨h1, h2, h3⟩

/-- Witness for C5 at a concrete world and upload request. -/
theorem C5_record_status_lifecycle_witness :
    chainOk (deploy_bot baseWorld 1).statusWrites = true ∧
    chainOk (upload_bot_code baseWorld baseUpload 1).statusWrites = true :=
  (C5_record_status_lifecycle baseWorld 1 baseUpload (by simp [baseWorld, baseDB])).1

theorem lookupStr_cons_ne {α : Type} (l : List (String × α)) (k key : String)
    (v : α) (h : k ≠ key) : lookupStr ((k, v) :: l) key = lookupStr l key := by
  simp [lookupStr, h]

/-- Full evaluation of `run_bot_container` when the client is connected and
neither SDK call raises. -/
theorem run_bot_container_eval (d : DockerState) (bot_id : Nat)
    (env_vars : List (String × String)) (start_command : String)
    (hav : d.available = true) (hge : d.getError = none)
    (hrr : d.runRaises = none) :
    run_bot_container d bot_id env_vars start_command =
      ((true, "Container " ++ get_container_name bot_id ++
          " started successfully"),
        { d with containers :=
            (get_container_name bot_id,
              { image := get_image_name bot_id, env := env_vars,
                command := if start_command = "" then defaultCommand
                  else pySplit start_command,
                restartPolicy := "always", status := "running" }) ::
            removeKey d.containers (get_container_name bot_id) }) := by
  simp only [run_bot_container, hge, hrr]
  rw [if_neg (show ¬(d.available = false) by rw [hav]; simp)]

/-- C8: with the runtime connected and the SDK calls succeeding,
`runContainer` succeeds; any existing container under the deterministic
name is removed first (its absence is not an error) and a fresh container
is registered under that name, built from the bot's image, carrying `env`
as its environment, the split `command` (or the runtime default
`["python", "bot.py"]` when the command string is empty) as entry point,
and restart policy `always`; containers of other bots are untouched; and a
second call with identical arguments returns the identical result and
state rather than an error. -/
theorem C8_run_idempotent (d : DockerState) (bot_id : Nat)
    (env_vars : List (String × String)) (start_command : String)
    (hav : d.available = true) (hge : d.getError = none)
    (hrr : d.runRaises = none) :
    (run_bot_container d bot_id env_vars start_command).1.1 = true ∧
    lookupStr (run_bot_container d bot_id env_vars start_command).2.containers
        (get_container_name bot_id) =
      some { image := get_image_name bot_id, env := env_vars,
             command := if start_command = "" then defaultCommand
               else pySplit start_command,
             restartPolicy := "always", status := "running" } ∧
    (∀ n, n ≠ get_container_name bot_id →
      lookupStr (run_bot_container d bot_id env_vars start_command).2.containers
          n =
        lookupStr d.containers n) ∧
    run_bot_container (run_bot_container d bot_id env_vars start_command).2
        bot_id env_vars start_command =
      run_bot_container d bot_id env_vars start_command := by
  have h1 := run_bot_container_eval d bot_id env_vars start_command hav hge hrr
  have hC : (run_bot_container d bot_id env_vars start_command).2.containers =
      (get_container_name bot_id,
        { image := get_image_name bot_id, env := env_vars,
          command := if start_command = "" then defaultCommand
            else pySplit start_command,
          restartPolicy := "always", status := "running" }) ::
      removeKey d.containers (get_container_name bot_id) := by
    rw [h1]
  refine ⟨by rw [h1], ?_, ?_, ?_⟩
  · rw [hC]
    simp [lookupStr]
  · intro n hn
    rw [hC, lookupStr_cons_ne _ _ _ _ (Ne.symm hn)]
    exact lookupStr_removeKey_ne d.containers (get_container_name bot_id) n hn
  · have hav2 : (run_bot_container d bot_id env_vars start_command).2.available =
        true := by
      rw [h1]; exact hav
    have hge2 : (run_bot_container d bot_id env_vars start_command).2.getError =
        none := by
      rw [h1]; exact hge
    have hrr2 : (run_bot_container d bot_id env_vars start_command).2.runRaises =
        none := by
      rw [h1]; exact hrr
    have h2 := run_bot_container_eval
      (run_bot_container d bot_id env_vars start_command).2 bot_id env_vars
      start_command hav2 hge2 hrr2
    rw [h2, hC, h1]
    rw [removeKey_cons_self, removeKey_idem]

/-- Witness for C8: rerunning bot 1 over a state where its container is
already running, with a non-empty start command. -/
theorem C8_run_idempotent_witness :
    (run_bot_container dockerRunning 1 [("A", "B")] "python main.py").1.1 =
      true ∧
    run_bot_container
        (run_bot_container dockerRunning 1 [("A", "B")] "python main.py").2 1
        [("A", "B")] "python main.py" =
      run_bot_container dockerRunning 1 [("A", "B")] "python main.py" := by
  have h := C8_run_idempotent dockerRunning 1 [("A", "B")] "python main.py"
    rfl rfl rfl
  exact ⟨h.1, h.2.2.2⟩

/-- C9: the naming scheme is given by the stated formulas; both functions
are plain total functions of the identifier (no I/O, no failure case in
their type), hence deterministic, and both are injective: distinct bot
identifiers give distinct container names and distinct image names. -/
theorem C9_naming_scheme :
    (∀ b, get_container_name b = "bot_" ++ toString b) ∧
    (∀ b, get_image_name b = "bot_" ++ toString b ++ ":latest") ∧
    (∀ b1 b2 : Nat, b1 ≠ b2 → get_container_name b1 ≠ get_container_name b2) ∧
    (∀ b1 b2 : Nat, b1 ≠ b2 → get_image_name b1 ≠ get_image_name b2) := by
  refine ⟨fun b => rfl, fun b => rfl, ?_, ?_⟩
  · intro b1 b2 hne heq
    apply hne
    apply natRepr_injective
    have hdata := congrArg String.data heq
    simp only [get_container_name, String.data_append] at hdata
    have := List.append_cancel_left hdata
    exact String.ext this
  · intro b1 b2 hne heq
    apply hne
    apply natRepr_injective
    have hdata := congrArg String.data heq
    simp only [get_image_name, String.data_append] at hdata
    have h1 := List.append_cancel_right hdata
    have h2 := List.append_cancel_left h1
    exact String.ext h2

/-- Witness for C9: distinct identifiers 1 and 2 give distinct container
and image names. -/
theorem C9_naming_scheme_witness :
    get_container_name 1 ≠ get_container_name 2 ∧
    get_image_name 1 ≠ get_image_name 2 :=
  ⟨C9_naming_scheme.2.2.1 1 2 (by decide),
   C9_naming_scheme.2.2.2 1 2 (by decide)⟩

/-- C10: for an existing bot, the upload endpoint always answers with the
normal redirect, and the deployment record it created always ends in a
terminal status with its accumulated log written.  When a file step raises,
the blanket handler marks the record `failed` and its log is the appended
error text; when the build fails, the record is `failed` and its log is the
accumulated transcript with the build error and the swallowed
`HTTPException` text appended.  The git-based deploy endpoint, by contrast,
surfaces a fetch failure or a build failure to the caller as an HTTP 500
error. -/
theorem C10_upload_always_redirects (w : World) (u : UploadReq) (bot_id : Nat)
    (bot : BotApp) (hb : findBot w.db bot_id = some bot) :
    (upload_bot_code w u bot_id).response =
      Response.redirect ("/bots/" ++ toString bot_id) ∧
    (∃ rec ∈ (upload_bot_code w u bot_id).world.db.deployments,
      rec.id = w.db.next_deployment_id ∧
      (rec.status = "success" ∨ rec.status = "failed") ∧ rec.log ≠ none) ∧
    (∀ e, u.fileError = some e →
      ({ id := w.db.next_deployment_id, bot_id := bot_id, status := "failed",
         log := some ("Error: " ++ e) } : Deployment) ∈
        (upload_bot_code w u bot_id).world.db.deployments) ∧
    (u.fileError = none →
      (build_bot_image w.docker w.fs bot.id bot.code_path).1.1 = false →
      ({ id := w.db.next_deployment_id, bot_id := bot_id, status := "failed",
         log := some (("Uploaded file: " ++ u.filename ++ " (" ++
             toString u.size ++ " bytes)") ++ "\n" ++
           ("Extracted to: " ++ bot.code_path) ++ "\n" ++
           (build_bot_image w.docker w.fs bot.id bot.code_path).1.2 ++ "\n" ++
           ("Error: 500: " ++
             (build_bot_image w.docker w.fs bot.id bot.code_path).1.2)) } :
        Deployment) ∈
        (upload_bot_code w u bot_id).world.db.deployments) ∧
    (∀ w2 b2 bot2 url, findBot w2.db b2 = some bot2 →
      bot2.repo_url = some url → url ≠ "" →
      (clone_or_pull_repo w2.git url bot2.code_path).1 = false →
      (deploy_bot w2 b2).response =
        Response.httpError 500 (clone_or_pull_repo w2.git url bot2.code_path).2) ∧
    (∀ w2 b2 bot2 url, findBot w2.db b2 = some bot2 →
      bot2.repo_url = some url → url ≠ "" →
      (clone_or_pull_repo w2.git url bot2.code_path).1 = true →
      (build_bot_image w2.docker w2.fs bot2.id bot2.code_path).1.1 = false →
      (deploy_bot w2 b2).response =
        Response.httpError 500
          (build_bot_image w2.docker w2.fs bot2.id bot2.code_path).1.2) := by
  refine ⟨?_, ?_, ?_, ?_, ?_, ?_⟩
  · simp only [upload_bot_code, hb]
    cases hfe : u.fileError with
    | some e => rfl
    | none =>
      by_cases hbuild : (build_bot_image w.docker w.fs bot.id
          bot.code_path).1.1 = false
      · rw [if_pos hbuild]
      · rw [if_neg hbuild]
  · simp only [upload_bot_code, hb]
    cases hfe : u.fileError with
    | some e =>
      exact ⟨_, finalize_mem w.db bot_id "failed" (joinLogs ["Error: " ++ e]),
        rfl, Or.inr rfl, by simp⟩
    | none =>
      by_cases hbuild : (build_bot_image w.docker w.fs bot.id
          bot.code_path).1.1 = false
      · rw [if_pos hbuild]
        exact ⟨_, finalize_mem w.db bot_id "failed" _, rfl, Or.inr rfl, by simp⟩
      · rw [if_neg hbuild]
        by_cases hr : (restart_bot_container w.docker bot.id bot.env_vars
            bot.start_command).1.1 = true
        · rw [if_pos hr]
          exact ⟨_, finalize_mem w.db bot_id "success" _, rfl, Or.inl rfl,
            by simp⟩
        · rw [if_neg hr]
          exact ⟨_, finalize_mem w.db bot_id "failed" _, rfl, Or.inr rfl,
            by simp⟩
  · intro e hfe
    simp only [upload_bot_code, hb, hfe]
    exact finalize_mem w.db bot_id "failed" ("Error: " ++ e)
  · intro hfe hbuild
    simp only [upload_bot_code, hb, hfe]
    rw [if_pos hbuild]
    exact finalize_mem w.db bot_id "failed"
      (("Uploaded file: " ++ u.filename ++ " (" ++ toString u.size ++
          " bytes)") ++ "\n" ++ ("Extracted to: " ++ bot.code_path) ++ "\n" ++
        (build_bot_image w.docker w.fs bot.id bot.code_path).1.2 ++ "\n" ++
        ("Error: 500: " ++
          (build_bot_image w.docker w.fs bot.id bot.code_path).1.2))
  · intro w2 b2 bot2 url hb2 hr2 hnb hf
    have hru : ¬(bot2.repo_url = none ∨ bot2.repo_url = some "") := by
      rw [hr2]
      simp [hnb]
    have hgd : bot2.repo_url.getD "" = url := by rw [hr2]; rfl
    simp only [deploy_bot, hb2]
    rw [if_neg hru, hgd, if_pos hf]
  · intro w2 b2 bot2 url hb2 hr2 hnb hf hbuild
    have hru : ¬(bot2.repo_url = none ∨ bot2.repo_url = some "") := by
      rw [hr2]
      simp [hnb]
    have hgd : bot2.repo_url.getD "" = url := by rw [hr2]; rfl
    have hf' : ¬((clone_or_pull_repo w2.git url bot2.code_path).1 = false) := by
      rw [hf]; simp
    simp only [deploy_bot, hb2]
    rw [if_neg hru, hgd, if_neg hf', if_pos hbuild]

/-- Witness for C10 at the concrete build-failure world: the upload is
answered with a redirect, the created record is `failed` with the build
error and the swallowed exception text in its log, and the git deploy of
the same bot surfaces the same build failure as HTTP 500. -/
theorem C10_upload_always_redirects_witness :
    (upload_bot_code buildFailWorld baseUpload 1).response =
      Response.redirect "/bots/1" ∧
    ({ id := 1, bot_id := 1, status := "failed",
       log := some ("Uploaded file: code.zip (10 bytes)\nExtracted to: /srv/bots/alpha\nFailed to build image: boom\nError: 500: Failed to build image: boom") } :
      Deployment) ∈
      (upload_bot_code buildFailWorld baseUpload 1).world.db.deployments ∧
    (deploy_bot buildFailWorld 1).response =
      Response.httpError 500
        (build_bot_image buildFailWorld.docker buildFailWorld.fs 1
          "/srv/bots/alpha").1.2 := by
  have h := C10_upload_always_redirects buildFailWorld baseUpload 1 alphaBot rfl
  refine ⟨h.1, ?_, h.2.2.2.2.2 buildFailWorld 1 alphaBot
    "https://example/alpha.git" rfl rfl (by decide) rfl rfl⟩
  exact h.2.2.2.1 rfl rfl
